import Mathlib

/-!
Formal model of the Jupyter MCP server core (`src/mcp.py`).

The development gives a shallow embedding of the parts of the program that the
specification talks about:

* the output normalizer `extract_output`;
* the connection manager (`get_notebook_client` / `ensure_notebook_connection`),
  modelled as a state machine over a cached-handle state and an environment of
  fault oracles, with handle identities drawn from a creation counter (each
  successful creation yields a fresh identity, as Python object construction
  does);
* the bounded-retry wrapper shared by `add_markdown_cell` and
  `add_execute_code_cell` (`retry_loop`);
* the execution poller of `add_execute_code_cell` (`wait_loop`), with time
  measured in half-second poll ticks so that the float arithmetic
  `waited += 0.5; waited < 30` of the source becomes the exact Nat bound
  `k < 60`;
* `read_notebook_content`.

Python exceptions are modelled with `Except String`: a `.error e` value is a
raised exception carrying the description `e`, and an `except` handler in the
source becomes a `match` on the `Except` value.  Python dictionaries that the
code indexes by fixed keys are modelled as structures with `Option` fields
(`none` = key absent); the representation mapping of a `display_data` /
`execute_result` record is an association list in insertion order.
-/

/-- A Jupyter cell-output record, as the fields `extract_output` reads of the
raw output dictionary: `output_type`, `text`, `data` (MIME type → rendered
representation, in insertion order) and `traceback`.  A `none` field models a
missing key. -/
structure OutputRecord where
  output_type : Option String
  text : Option String
  data : Option (List (String × String))
  traceback : Option String
deriving Repr, DecidableEq

/-- How Python renders an optional string inside an f-string: `None` when the
value is absent, the bare string otherwise. -/
def pyOptRepr : Option String → String
  | none => "None"
  | some s => s

/-- Python's `repr` of `list(data.keys())`, used in the fallback placeholder of
`extract_output`. -/
def keysRepr (ks : List String) : String :=
  "[" ++ String.intercalate ", " (ks.map (fun k => "\x27" ++ k ++ "\x27")) ++ "]"

/-- `extract_output` (src/mcp.py lines 74–98).  Mirrors the source exactly:
`output.get("output_type")`, `output.get("text", "")`,
`output.get("data", {})`, membership tests on the data mapping — and the one
unguarded access `output["traceback"]`, which raises `KeyError` when the
`traceback` key is absent (modelled as `.error`). -/
def extract_output (o : OutputRecord) : Except String String :=
  let output_type := o.output_type
  if output_type = some "stream" then
    .ok (o.text.getD "")
  else if output_type = some "display_data" ∨ output_type = some "execute_result" then
    let data := o.data.getD []
    match data.lookup "text/plain" with
    | some v => .ok v
    | none =>
      match data.lookup "text/html" with
      | some _ => .ok "[HTML Output]"
      | none =>
        match data.lookup "image/png" with
        | some _ => .ok "[Image Output (PNG)]"
        | none =>
          .ok ("[" ++ pyOptRepr output_type ++ " Data: keys=" ++
               keysRepr (data.map Prod.fst) ++ "]")
  else if output_type = some "error" then
    match o.traceback with
    | some tb => .ok tb
    | none => .error "KeyError: \x27traceback\x27"
  else
    .ok ("[Unknown output type: " ++ pyOptRepr output_type ++ "]")

/-- One cell of the shared y-document, with the fields the server reads:
`cell_type`, `source` and `outputs`. -/
structure PyCell where
  cell_type : String
  source : String
  outputs : List OutputRecord
deriving Repr, DecidableEq

/-! ## Connection manager -/

/-- The mutable module state of the connection manager: the cached
`notebook_client` handle (identified by the number of the creation that
produced it) and the number of creation attempts made so far, which doubles as
the source of fresh handle identities. -/
structure ConnState where
  client : Option Nat
  created : Nat
deriving Repr, DecidableEq

/-- Environment of the connection manager: `probe_ok h` says whether reading
`notebook_client._doc` on the handle with identity `h` succeeds, and
`create_fail n` gives the outcome of the `n`-th construct-and-start of an
`NbModelClient` (`none` = success, `some e` = it raises `e`). -/
structure ConnEnv where
  probe_ok : Nat → Bool
  create_fail : Nat → Option String

/-- `get_notebook_client` (src/mcp.py lines 42–57): return the cached handle if
present, otherwise construct and start a new client; on a creation fault, reset
the global to `None` and re-raise. -/
def get_notebook_client (env : ConnEnv) (s : ConnState) : Except String Nat × ConnState :=
  match s.client with
  | some h => (.ok h, s)
  | none =>
    match env.create_fail s.created with
    | none => (.ok s.created, { client := some s.created, created := s.created + 1 })
    | some e => (.error e, { client := none, created := s.created + 1 })

/-- `ensure_notebook_connection` (src/mcp.py lines 59–72): delegate to
`get_notebook_client` when no handle is cached; otherwise probe the cached
handle by touching `_doc`, returning it on success, and on any probe fault
clear the global and reconnect.  A fault raised by `get_notebook_client` in the
`None` branch is caught by the same `except`, which clears the global and calls
`get_notebook_client` once more. -/
def ensure_notebook_connection (env : ConnEnv) (s : ConnState) :
    Except String Nat × ConnState :=
  match s.client with
  | none =>
    match get_notebook_client env s with
    | (.ok h, s1) => (.ok h, s1)
    | (.error _, s1) => get_notebook_client env { client := none, created := s1.created }
  | some h =>
    if env.probe_ok h then (.ok h, s)
    else get_notebook_client env { client := none, created := s.created }

/-- Reachability invariant of the connection state: any cached handle was
produced by an earlier creation, so its identity is below the creation
counter.  It holds in the initial state `⟨none, 0⟩` and is preserved by both
operations (`get_notebook_client_inv`, `ensure_notebook_connection_inv`). -/
def ConnInv (s : ConnState) : Prop :=
  ∀ h, s.client = some h → h < s.created

/-! ## Bounded retry wrapper -/

/-- `max_retries = 3` of both tool operations. -/
def max_retries : Nat := 3

/-- One pass of `for attempt in range(max_retries): try ... except ...`.
`i` is the current attempt number, the second `Nat` argument the remaining
iterations (`maxR - i`).  `attempts i` is the outcome of the attempt body;
on a fault with attempts remaining the connection is reset and the loop
continues, on the last attempt the handler returns `on_exhaust e`.  The
`none` result models the Python function falling off the loop (only possible
when `maxR = 0`). -/
def retry_loop_go (attempts : Nat → Except String α) (on_exhaust : String → α)
    (maxR : Nat) (i : Nat) : Nat → Option α
  | 0 => none
  | r + 1 =>
    match attempts i with
    | .ok v => some v
    | .error e =>
      if i < maxR - 1 then retry_loop_go attempts on_exhaust maxR (i + 1) r
      else some (on_exhaust e)

/-- The retry wrapper shared by `add_markdown_cell` and
`add_execute_code_cell` (src/mcp.py lines 113–147 and 162–212). -/
def retry_loop (maxR : Nat) (attempts : Nat → Except String α)
    (on_exhaust : String → α) : Option α :=
  retry_loop_go attempts on_exhaust maxR 0 maxR

/-! ## Execution poller -/

/-- The guarded output probe of one poll iteration (src/mcp.py lines 184–188):
`if cell_index < len(ydoc._ycells): outputs = ydoc._ycells[cell_index]["outputs"];
if outputs: break`.  An out-of-range index simply yields `false` (no outputs
observed yet, keep polling). -/
def check_outputs (cells : List PyCell) (cell_index : Nat) : Bool :=
  match cells[cell_index]? with
  | some c => !c.outputs.isEmpty
  | none => false

/-- `max_wait_time / check_interval = 30 / 0.5 = 60` poll ticks. -/
def max_wait_polls : Nat := 60

/-- The wait loop of `add_execute_code_cell` (src/mcp.py lines 179–193),
with time in half-second ticks: `k` polls have happened, `r = 60 - k` remain.
`trace j` is the y-document's cell list at tick `j` (the document is mutated
concurrently, so each poll may see a different list).  Returns the tick at
which the loop exits — either the tick whose poll observed outputs, or tick 60
(`waited = 30`, the soft timeout). -/
def wait_loop_go (trace : Nat → List PyCell) (cell_index : Nat) (k : Nat) : Nat → Nat
  | 0 => k
  | r + 1 =>
    if check_outputs (trace (k + 1)) cell_index then k + 1
    else wait_loop_go trace cell_index (k + 1) r

/-- Exit tick of the wait loop started at tick 0. -/
def wait_loop (trace : Nat → List PyCell) (cell_index : Nat) : Nat :=
  wait_loop_go trace cell_index 0 max_wait_polls

/-- The final, authoritative output read after the wait loop (src/mcp.py lines
196–198): `outputs = ydoc._ycells[cell_index]["outputs"]` followed by
`[extract_output(output) for output in outputs]`.  Unlike the in-loop probe it
does NOT guard the index: an out-of-range `cell_index` raises `IndexError`. -/
def get_final_outputs (cells : List PyCell) (cell_index : Nat) :
    Except String (List String) :=
  match cells[cell_index]? with
  | none => .error "IndexError: list index out of range"
  | some c => c.outputs.mapM extract_output

/-- One attempt body of `add_execute_code_cell` (src/mcp.py lines 163–201):
ensure connection (`conn`), append the code cell (`append`, returning its
index), submit it for execution (`exec_req`), run the wait loop, then perform
the final output read on the document as of the exit tick. -/
def add_execute_attempt (conn : Except String Unit) (append : Except String Nat)
    (exec_req : Except String Unit) (trace : Nat → List PyCell) :
    Except String (List String) :=
  match conn with
  | .error e => .error e
  | .ok _ =>
    match append with
    | .error e => .error e
    | .ok cell_index =>
      match exec_req with
      | .error e => .error e
      | .ok _ =>
        get_final_outputs (trace (wait_loop trace cell_index)) cell_index

/-- `add_execute_code_cell` (src/mcp.py lines 150–212): the attempt bodies
wrapped in the 3-attempt retry loop; exhausting the attempts returns the
terminal error string (inside a singleton list) instead of raising. -/
def add_execute_code_cell_run (attempts : Nat → Except String (List String)) :
    Option (List String) :=
  retry_loop max_retries attempts
    (fun e => ["Error executing code cell after " ++ toString max_retries ++
               " attempts: " ++ e])

/-! ## add_markdown_cell -/

/-- One attempt body of `add_markdown_cell` (src/mcp.py lines 114–136):
ensure connection (`conn`), append the markdown cell (`append`, returning its
index), then best-effort verify the cell kind at that index against the
y-document snapshot `ycells`.  All three verification outcomes — verified,
kind mismatch (warning logged, falls through), index out of range (falls
through) — return the same fixed success string. -/
def add_markdown_attempt (conn : Except String Unit) (append : Except String Nat)
    (ycells : List PyCell) : Except String String :=
  match conn with
  | .error e => .error e
  | .ok _ =>
    match append with
    | .error e => .error e
    | .ok cell_index =>
      match ycells[cell_index]? with
      | some c =>
        if c.cell_type = "markdown" then .ok "Jupyter Markdown cell added."
        else .ok "Jupyter Markdown cell added."
      | none => .ok "Jupyter Markdown cell added."

/-- `add_markdown_cell` (src/mcp.py lines 101–147): the attempt bodies wrapped
in the 3-attempt retry loop. -/
def add_markdown_cell_run (attempts : Nat → Except String String) : Option String :=
  retry_loop max_retries attempts
    (fun e => "Error adding markdown cell after " ++ toString max_retries ++
              " attempts: " ++ e)

/-! ## read_notebook_content -/

/-- One entry of the `cells` list returned by `read_notebook_content`.
`outputs = none` models the dictionary built without an `outputs` key (the
non-code branch). -/
structure CellEntry where
  index : Nat
  type : String
  content : String
  outputs : Option (List String)
deriving Repr, DecidableEq

/-- The result dictionary of `read_notebook_content`: `error` is present only
on the fault path. -/
structure ReadResult where
  error : Option String
  cells : List CellEntry
  total_cells : Nat
deriving Repr, DecidableEq

/-- One iteration of the cell loop (src/mcp.py lines 230–249): code cells get
their outputs normalized inline (a normalization fault propagates), other
cells omit the `outputs` field. -/
def read_cell_entry (i : Nat) (c : PyCell) : Except String CellEntry :=
  if c.cell_type = "code" then
    match c.outputs.mapM extract_output with
    | .ok outs => .ok ⟨i, c.cell_type, c.source, some outs⟩
    | .error e => .error e
  else
    .ok ⟨i, c.cell_type, c.source, none⟩

/-- The cell enumeration loop `for i in range(len(ydoc._ycells))`
(src/mcp.py lines 229–249), starting at index `i`. -/
def read_all_cells : List PyCell → Nat → Except String (List CellEntry)
  | [], _ => .ok []
  | c :: rest, i =>
    match read_cell_entry i c with
    | .error e => .error e
    | .ok ent =>
      match read_all_cells rest (i + 1) with
      | .error e => .error e
      | .ok ents => .ok (ent :: ents)

/-- `read_notebook_content` (src/mcp.py lines 215–262).  `conn` is the outcome
of `ensure_notebook_connection` together with the y-document snapshot it
yields.  A single attempt, no retry wrapper: any fault — connection or
normalization — is caught by the one `except` and converted to
`{error, cells: [], total_cells: 0}`; the function is total (never raises). -/
def read_notebook_content (conn : Except String (List PyCell)) : ReadResult :=
  match conn with
  | .error e => ⟨some e, [], 0⟩
  | .ok ycells =>
    match read_all_cells ycells 0 with
    | .ok cells => ⟨none, cells, cells.length⟩
    | .error e => ⟨some e, [], 0⟩

/-! ## Connection-state invariant

Every cached handle identity was produced by an earlier creation, so it lies
below the creation counter.  This justifies the `ConnInv` hypothesis of the
reconnection theorem: it holds in the initial state and is preserved by both
connection-manager operations. -/

theorem connInv_init : ConnInv ⟨none, 0⟩ := by
  intro h hh
  simp at hh

theorem connInv_clear (n : Nat) : ConnInv ⟨none, n⟩ := by
  intro h hh
  simp at hh

theorem get_notebook_client_inv (env : ConnEnv) (s : ConnState) (hs : ConnInv s) :
    ConnInv (get_notebook_client env s).2 := by
  cases hc : s.client with
  | some h =>
    simpa [get_notebook_client, hc] using hs
  | none =>
    cases hf : env.create_fail s.created with
    | none =>
      have hst : (get_notebook_client env s).2 = ⟨some s.created, s.created + 1⟩ := by
        simp [get_notebook_client, hc, hf]
      rw [hst]
      intro h hh
      simp at hh ⊢
      omega
    | some e =>
      have hst : (get_notebook_client env s).2 = ⟨none, s.created + 1⟩ := by
        simp [get_notebook_client, hc, hf]
      rw [hst]
      intro h hh
      simp at hh

theorem ensure_notebook_connection_inv (env : ConnEnv) (s : ConnState) (hs : ConnInv s) :
    ConnInv (ensure_notebook_connection env s).2 := by
  cases hc : s.client with
  | none =>
    rcases hgc : get_notebook_client env s with ⟨r, s1⟩
    cases r with
    | ok h =>
      have h1 := get_notebook_client_inv env s hs
      rw [hgc] at h1
      simpa [ensure_notebook_connection, hc, hgc] using h1
    | error e =>
      have h2 := get_notebook_client_inv env ⟨none, s1.created⟩ (connInv_clear s1.created)
      simpa [ensure_notebook_connection, hc, hgc] using h2
  | some h =>
    by_cases hp : env.probe_ok h
    · simpa [ensure_notebook_connection, hc, hp] using hs
    · have h2 := get_notebook_client_inv env ⟨none, s.created⟩ (connInv_clear s.created)
      simpa [ensure_notebook_connection, hc, hp] using h2

/-! ## Claim C1 -/

/-- Claim C1, counterexample: `extract_output` does NOT return a display
string for every record.  The record of kind `error` whose `traceback` key is
absent hits the unguarded access `output["traceback"]` (src/mcp.py line 96) and
raises `KeyError` instead of degrading to an empty string or placeholder. -/
theorem extract_output_missing_traceback_raises :
    extract_output ⟨some "error", none, none, none⟩ =
      Except.error "KeyError: \x27traceback\x27" := rfl

/-- Claim C1 (amended): for every output record, `extract_output` returns
exactly one display string — a missing `text` field, missing `data` mapping or
unknown kind degrades to an empty string or a descriptive placeholder — EXCEPT
when the record's kind is `error` and its `traceback` field is missing, in
which case it raises (`KeyError`). -/
theorem extract_output_total_unless_missing_traceback (o : OutputRecord) :
    (o.output_type = some "error" ∧ o.traceback = none →
      extract_output o = Except.error "KeyError: \x27traceback\x27") ∧
    (¬ (o.output_type = some "error" ∧ o.traceback = none) →
      ∃ s, extract_output o = Except.ok s) := by
  constructor
  · rintro ⟨ht, htb⟩
    simp [extract_output, ht, htb]
  · intro hn
    by_cases h1 : o.output_type = some "stream"
    · exact ⟨o.text.getD "", by simp [extract_output, h1]⟩
    · by_cases h2 : o.output_type = some "display_data"
      · cases hp : (o.data.getD []).lookup "text/plain" with
        | some v => exact ⟨v, by simp [extract_output, h2, hp]⟩
        | none =>
          cases hh : (o.data.getD []).lookup "text/html" with
          | some v => exact ⟨"[HTML Output]", by simp [extract_output, h2, hp, hh]⟩
          | none =>
            cases hi : (o.data.getD []).lookup "image/png" with
            | some v =>
              exact ⟨"[Image Output (PNG)]", by simp [extract_output, h2, hp, hh, hi]⟩
            | none =>
              exact ⟨"[" ++ pyOptRepr (some "display_data") ++ " Data: keys=" ++
                       keysRepr ((o.data.getD []).map Prod.fst) ++ "]",
                     by simp [extract_output, h2, hp, hh, hi]⟩
      · by_cases h3 : o.output_type = some "execute_result"
        · cases hp : (o.data.getD []).lookup "text/plain" with
          | some v => exact ⟨v, by simp [extract_output, h3, hp]⟩
          | none =>
            cases hh : (o.data.getD []).lookup "text/html" with
            | some v => exact ⟨"[HTML Output]", by simp [extract_output, h3, hp, hh]⟩
            | none =>
              cases hi : (o.data.getD []).lookup "image/png" with
              | some v =>
                exact ⟨"[Image Output (PNG)]", by simp [extract_output, h3, hp, hh, hi]⟩
              | none =>
                exact ⟨"[" ++ pyOptRepr (some "execute_result") ++ " Data: keys=" ++
                         keysRepr ((o.data.getD []).map Prod.fst) ++ "]",
                       by simp [extract_output, h3, hp, hh, hi]⟩
        · by_cases h4 : o.output_type = some "error"
          · cases htb : o.traceback with
            | none => exact absurd ⟨h4, htb⟩ hn
            | some tb =>
              exact ⟨tb, by simp [extract_output, h1, h2, h3, h4, htb]⟩
          · exact ⟨"[Unknown output type: " ++ pyOptRepr o.output_type ++ "]",
                   by simp [extract_output, h1, h2, h3, h4]⟩

/-- Claim C1, witness: the amended theorem applied to a concrete error-kind
record lacking a `traceback` field. -/
theorem extract_output_total_unless_missing_traceback_witness :
    extract_output ⟨some "error", some "ignored", none, none⟩ =
      Except.error "KeyError: \x27traceback\x27" :=
  (extract_output_total_unless_missing_traceback
    ⟨some "error", some "ignored", none, none⟩).1 ⟨rfl, rfl⟩

/-! ## Claim C7 -/

/-- Claim C7: for every output record of kind `display_data` or
`execute_result` whose data mapping contains the key `text/plain`,
`extract_output` returns exactly that `text/plain` value, regardless of which
other representation keys are also present. -/
theorem extract_output_text_plain_priority (o : OutputRecord)
    (d : List (String × String)) (v : String)
    (hk : o.output_type = some "display_data" ∨ o.output_type = some "execute_result")
    (hd : o.data = some d) (hv : d.lookup "text/plain" = some v) :
    extract_output o = Except.ok v := by
  rcases hk with hk | hk <;> simp [extract_output, hk, hd, hv]

/-- Claim C7, witness: an `execute_result` record carrying HTML, PNG and
plain-text representations (plain-text listed last) normalizes to the
plain-text value. -/
theorem extract_output_text_plain_priority_witness :
    extract_output ⟨some "execute_result", none,
        some [("text/html", "<b>2</b>"), ("image/png", "iVBOR"), ("text/plain", "2")],
        none⟩ =
      Except.ok "2" :=
  extract_output_text_plain_priority
    ⟨some "execute_result", none,
      some [("text/html", "<b>2</b>"), ("image/png", "iVBOR"), ("text/plain", "2")],
      none⟩
    [("text/html", "<b>2</b>"), ("image/png", "iVBOR"), ("text/plain", "2")]
    "2" (Or.inr rfl) rfl rfl

/-! ## Claim C2 -/

/-- Claim C2: when all three attempts of `add_execute_code_cell` fault, the
tool still returns a value (`some …`, never a raised exception): the singleton
list holding the error string that embeds the attempt count 3 and the
description of the last fault. -/
theorem add_execute_code_cell_exhausts (attempts : Nat → Except String (List String))
    (e0 e1 e2 : String)
    (h0 : attempts 0 = .error e0) (h1 : attempts 1 = .error e1)
    (h2 : attempts 2 = .error e2) :
    add_execute_code_cell_run attempts =
      some ["Error executing code cell after 3 attempts: " ++ e2] := by
  simp [add_execute_code_cell_run, retry_loop, max_retries, retry_loop_go, h0, h1, h2]
  rfl

/-- Claim C2, witness: every attempt faults with `connection refused`. -/
theorem add_execute_code_cell_exhausts_witness :
    add_execute_code_cell_run (fun _ => .error "connection refused") =
      some ["Error executing code cell after 3 attempts: connection refused"] :=
  add_execute_code_cell_exhausts (fun _ => .error "connection refused")
    "connection refused" "connection refused" "connection refused" rfl rfl rfl

/-! ## Claim C9 -/

/-- Claim C9: when the append of `add_markdown_cell` succeeds but the
verification step sees a non-markdown kind at the reported index — or cannot
verify because the index is out of range — the mismatch does not trigger a
retry and the operation returns the fixed success string.  The result is
produced by attempt 0 alone: the later values of `attempts` are arbitrary. -/
theorem add_markdown_cell_mismatch_success (attempts : Nat → Except String String)
    (ycells : List PyCell) (idx : Nat)
    (hbody : attempts 0 = add_markdown_attempt (.ok ()) (.ok idx) ycells)
    (hmis : (∃ c, ycells[idx]? = some c ∧ c.cell_type ≠ "markdown") ∨
            ycells[idx]? = none) :
    add_markdown_cell_run attempts = some "Jupyter Markdown cell added." := by
  have hb : attempts 0 = .ok "Jupyter Markdown cell added." := by
    rw [hbody]
    rcases hmis with ⟨c, hg, hne⟩ | hg
    · simp [add_markdown_attempt, hg]
    · simp [add_markdown_attempt, hg]
  simp [add_markdown_cell_run, retry_loop, max_retries, retry_loop_go, hb]

/-- Claim C9, witness: the cell observed at the reported index is a code cell,
yet the tool returns the fixed success string. -/
theorem add_markdown_cell_mismatch_success_witness :
    add_markdown_cell_run
        (fun _ => add_markdown_attempt (.ok ()) (.ok 0) [⟨"code", "x = 1", []⟩]) =
      some "Jupyter Markdown cell added." :=
  add_markdown_cell_mismatch_success
    (fun _ => add_markdown_attempt (.ok ()) (.ok 0) [⟨"code", "x = 1", []⟩])
    [⟨"code", "x = 1", []⟩] 0 rfl
    (Or.inl ⟨⟨"code", "x = 1", []⟩, rfl, by simp⟩)

/-! ## Claim C3 -/

/-- Claim C3, counterexample: NOT every output read of `add_execute_code_cell`
guards the cell index.  Against a document that stays empty (index 0 never
valid), the in-loop guarded probes run all 60 polls without faulting, but the
final authoritative read after the loop (src/mcp.py line 197) indexes the cell
list unguarded and raises `IndexError` instead of treating the out-of-range
index as "no outputs yet". -/
theorem add_execute_final_read_unguarded :
    wait_loop (fun _ => []) 0 = 60 ∧
    add_execute_attempt (.ok ()) (.ok 0) (.ok ()) (fun _ => []) =
      Except.error "IndexError: list index out of range" :=
  ⟨rfl, rfl⟩

/-- Claim C3 (amended): the output reads inside the poll loop guard the cell
index against the current cell count and treat an out-of-range index as "no
outputs yet" (the probe yields `false` and polling continues), but the final
authoritative read after the loop performs an unguarded index access and
faults (`IndexError`) on an out-of-range index; that fault is then caught by
the surrounding retry wrapper. -/
theorem wait_read_guarded_final_read_unguarded (cells : List PyCell) (cell_index : Nat)
    (hout : cells.length ≤ cell_index) :
    check_outputs cells cell_index = false ∧
    get_final_outputs cells cell_index =
      Except.error "IndexError: list index out of range" := by
  have hg : cells[cell_index]? = none := List.getElem?_eq_none hout
  exact ⟨by simp [check_outputs, hg], by simp [get_final_outputs, hg]⟩

/-- Claim C3, witness: the amended theorem at an empty document and index 5. -/
theorem wait_read_guarded_final_read_unguarded_witness :
    check_outputs [] 5 = false ∧
    get_final_outputs [] 5 = Except.error "IndexError: list index out of range" :=
  wait_read_guarded_final_read_unguarded [] 5 (Nat.zero_le 5)

/-! ## Claim C4 -/

/-- Claim C4: with a cached handle whose liveness probe succeeds, two
consecutive calls to `ensure_notebook_connection` both return that same
handle identity and leave the state — including the creation counter —
untouched, so no new session is created. -/
theorem ensure_notebook_connection_idempotent (env : ConnEnv) (s : ConnState) (h : Nat)
    (hc : s.client = some h) (hp : env.probe_ok h = true) :
    ensure_notebook_connection env s = (Except.ok h, s) ∧
    ensure_notebook_connection env (ensure_notebook_connection env s).2 =
      (Except.ok h, s) := by
  have h1 : ensure_notebook_connection env s = (Except.ok h, s) := by
    simp [ensure_notebook_connection, hc, hp]
  refine ⟨h1, ?_⟩
  rw [h1]
  exact h1

/-- Claim C4, witness: a state caching handle 0 with a healthy probe. -/
theorem ensure_notebook_connection_idempotent_witness :
    ensure_notebook_connection ⟨fun _ => true, fun _ => none⟩ ⟨some 0, 1⟩ =
      (Except.ok 0, ⟨some 0, 1⟩) :=
  (ensure_notebook_connection_idempotent ⟨fun _ => true, fun _ => none⟩
    ⟨some 0, 1⟩ 0 rfl rfl).1

/-! ## Claim C5 -/

/-- Claim C5: when the liveness probe of the cached handle faults in any way
(the model's `probe_ok = false` covers every `Exception`, a missing attribute
included), `ensure_notebook_connection` discards the cached handle and returns
a newly created handle whose identity is distinct from the discarded one.
`ConnInv` — every cached handle identity is below the creation counter — holds
in the initial state and is preserved by both operations
(`connInv_init`, `get_notebook_client_inv`, `ensure_notebook_connection_inv`),
and freshly created handles take the counter as identity, so the new handle
differs from the discarded one. -/
theorem ensure_notebook_connection_reconnects (env : ConnEnv) (s : ConnState) (h : Nat)
    (hc : s.client = some h) (hinv : ConnInv s) (hp : env.probe_ok h = false)
    (hcr : env.create_fail s.created = none) :
    ensure_notebook_connection env s =
      (Except.ok s.created, ⟨some s.created, s.created + 1⟩) ∧
    s.created ≠ h := by
  constructor
  · simp [ensure_notebook_connection, get_notebook_client, hc, hp, hcr]
  · exact Nat.ne_of_gt (hinv h hc)

/-- Claim C5, witness: handle 0 is cached, its probe faults, and the
reconnect yields the distinct fresh handle 1. -/
theorem ensure_notebook_connection_reconnects_witness :
    ensure_notebook_connection ⟨fun _ => false, fun _ => none⟩ ⟨some 0, 1⟩ =
      (Except.ok 1, ⟨some 1, 2⟩) ∧ (1 : Nat) ≠ 0 :=
  ensure_notebook_connection_reconnects ⟨fun _ => false, fun _ => none⟩ ⟨some 0, 1⟩ 0
    rfl (fun h hh => by simp at hh ⊢; omega) rfl rfl

/-! ## Claim C10 -/

/-- Claim C10: when creation inside `get_notebook_client` faults, the shared
handle is reset to `None` as the fault propagates (`.error e` is returned with
an empty cache), so no partially-constructed handle is ever cached; and a
subsequent call with the empty cache re-attempts creation from scratch
(succeeding if the next creation succeeds). -/
theorem get_notebook_client_fault_resets (env : ConnEnv) (s : ConnState) (e : String)
    (hc : s.client = none) (hf : env.create_fail s.created = some e) :
    get_notebook_client env s = (Except.error e, ⟨none, s.created + 1⟩) ∧
    (env.create_fail (s.created + 1) = none →
      get_notebook_client env ⟨none, s.created + 1⟩ =
        (Except.ok (s.created + 1), ⟨some (s.created + 1), s.created + 1 + 1⟩)) := by
  constructor
  · simp [get_notebook_client, hc, hf]
  · intro h2
    simp [get_notebook_client, h2]

/-- Claim C10, witness: the first creation faults with `boom`; the cache stays
empty and the fault is what propagates. -/
theorem get_notebook_client_fault_resets_witness :
    get_notebook_client ⟨fun _ => true, fun n => if n = 0 then some "boom" else none⟩
        ⟨none, 0⟩ =
      (Except.error "boom", ⟨none, 1⟩) :=
  (get_notebook_client_fault_resets
    ⟨fun _ => true, fun n => if n = 0 then some "boom" else none⟩ ⟨none, 0⟩ "boom"
    rfl rfl).1

/-! ## Claim C6 -/

/-- If no poll ever observes outputs, the wait loop runs its full budget:
starting after `k` polls with `r` remaining, it exits at tick `k + r`. -/
theorem wait_loop_go_no_outputs (trace : Nat → List PyCell) (cell_index : Nat) :
    ∀ r k, (∀ j, check_outputs (trace j) cell_index = false) →
      wait_loop_go trace cell_index k r = k + r := by
  intro r
  induction r with
  | zero =>
    intro k hch
    simp [wait_loop_go]
  | succ n ih =>
    intro k hch
    rw [wait_loop_go, hch (k + 1)]
    simp only [Bool.false_eq_true, if_false]
    rw [ih (k + 1) hch]
    omega

/-- Claim C6: when the appended cell never gains any outputs (at every tick it
exists with an empty output list), the wait loop terminates at exactly the
30-second budget — 60 polls of 0.5 s — and the operation returns the empty
list of normalized outputs (`some []`, a returned value): a soft timeout, not
an error string and not a raised exception. -/
theorem add_execute_soft_timeout (trace : Nat → List PyCell) (cell_index : Nat)
    (hno : ∀ k, ∃ c, (trace k)[cell_index]? = some c ∧ c.outputs = []) :
    wait_loop trace cell_index = 60 ∧
    add_execute_code_cell_run
        (fun _ => add_execute_attempt (.ok ()) (.ok cell_index) (.ok ()) trace) =
      some [] := by
  have hch : ∀ j, check_outputs (trace j) cell_index = false := by
    intro j
    rcases hno j with ⟨c, hg, he⟩
    simp [check_outputs, hg, he]
  have hw : wait_loop trace cell_index = 60 := by
    rw [wait_loop, max_wait_polls, wait_loop_go_no_outputs trace cell_index 60 0 hch]
  refine ⟨hw, ?_⟩
  rcases hno 60 with ⟨c, hg, he⟩
  have hfin : get_final_outputs (trace 60) cell_index = .ok [] := by
    simp [get_final_outputs, hg, he]
    rfl
  simp [add_execute_code_cell_run, retry_loop, max_retries, retry_loop_go,
        add_execute_attempt, hw, hfin]

/-- Claim C6, witness: a document holding one code cell that never produces
output; the tool returns the empty output list. -/
theorem add_execute_soft_timeout_witness :
    add_execute_code_cell_run
        (fun _ => add_execute_attempt (.ok ()) (.ok 0) (.ok ())
          (fun _ => [⟨"code", "while True: pass", []⟩])) =
      some [] :=
  (add_execute_soft_timeout (fun _ => [⟨"code", "while True: pass", []⟩]) 0
    (fun _ => ⟨⟨"code", "while True: pass", []⟩, rfl, rfl⟩)).2

/-! ## Claim C8 -/

/-- Shape of one successfully built cell entry: it carries an `outputs` field
exactly when the source cell's kind is `code`, and mirrors the cell's index,
kind and source text. -/
theorem read_cell_entry_shape (i : Nat) (c : PyCell) (ent : CellEntry)
    (h : read_cell_entry i c = .ok ent) :
    ent.index = i ∧ ent.type = c.cell_type ∧ ent.content = c.source ∧
    (ent.type = "code" ↔ ent.outputs.isSome) := by
  unfold read_cell_entry at h
  by_cases hct : c.cell_type = "code"
  · rw [if_pos hct] at h
    cases hm : c.outputs.mapM extract_output with
    | error e => rw [hm] at h; simp at h
    | ok outs =>
      rw [hm] at h
      simp at h
      rw [← h]
      simp [hct]
  · rw [if_neg hct] at h
    simp at h
    rw [← h]
    simp [hct]

/-- Shape of a successful run of the cell-enumeration loop: one entry per
cell, each shaped per `read_cell_entry_shape`. -/
theorem read_all_cells_shape (ycells : List PyCell) :
    ∀ i entries, read_all_cells ycells i = .ok entries →
      entries.length = ycells.length ∧
      ∀ ent ∈ entries, (ent.type = "code" ↔ ent.outputs.isSome) := by
  induction ycells with
  | nil =>
    intro i entries h
    simp [read_all_cells] at h
    subst h
    simp
  | cons c rest ih =>
    intro i entries h
    unfold read_all_cells at h
    cases hce : read_cell_entry i c with
    | error e => rw [hce] at h; simp at h
    | ok ent =>
      rw [hce] at h
      cases hrest : read_all_cells rest (i + 1) with
      | error e => rw [hrest] at h; simp at h
      | ok ents =>
        rw [hrest] at h
        simp at h
        rcases ih (i + 1) ents hrest with ⟨hlen, hall⟩
        constructor
        · rw [← h]
          simp [hlen]
        · intro x hx
          rw [← h] at hx
          rcases List.mem_cons.mp hx with hx | hx
          · rw [hx]
            exact (read_cell_entry_shape i c ent hce).2.2.2
          · exact hall x hx

/-- Claim C8: `read_notebook_content` makes its single attempt with no retry
wrapper and is total (never raises): on a connection fault it returns the
structured error result, and given a document snapshot it returns either
`{cells, total_cells = cells.length}` — with `total_cells` matching the number
of document cells, an `outputs` field present on exactly the code-cell entries
and absent on the others — or, on a fault while normalizing (see claim C1),
the same structured error result with empty `cells` and `total_cells = 0`. -/
theorem read_notebook_content_spec (conn : Except String (List PyCell)) :
    (∀ e, conn = .error e → read_notebook_content conn = ⟨some e, [], 0⟩) ∧
    (∀ ycells, conn = .ok ycells →
      (∃ e, read_notebook_content conn = ⟨some e, [], 0⟩) ∨
      (∃ entries, read_notebook_content conn = ⟨none, entries, entries.length⟩ ∧
        entries.length = ycells.length ∧
        ∀ ent ∈ entries, (ent.type = "code" ↔ ent.outputs.isSome))) := by
  constructor
  · intro e he
    rw [he]
    simp [read_notebook_content]
  · intro ycells hy
    rw [hy]
    cases hr : read_all_cells ycells 0 with
    | error e =>
      exact Or.inl ⟨e, by simp [read_notebook_content, hr]⟩
    | ok entries =>
      rcases read_all_cells_shape ycells 0 entries hr with ⟨hlen, hall⟩
      exact Or.inr ⟨entries, by simp [read_notebook_content, hr], hlen, hall⟩

/-- Claim C8, witness: a faulting connection yields the structured error
result with empty cells. -/
theorem read_notebook_content_spec_witness :
    read_notebook_content (Except.error "connection lost") =
      ⟨some "connection lost", [], 0⟩ :=
  (read_notebook_content_spec (Except.error "connection lost")).1 "connection lost" rfl
